import Mathlib

/-!
Shallow embedding of the ICM-426xx IMU driver core
(drivers/iio/imu/inv_icm42600/inv_icm42600_core.c).

Register transactions go through an abstract bus oracle; every function
returns the list of register writes it issued, the updated driver state,
and the error outcome, mirroring the C control flow statement by
statement.  Machine integers are modelled as Int/Nat; the sentinel
"unspecified" configuration value is any negative Int, as in the C
struct whose fields are plain int.
-/

namespace Icm42600

/-- Logical register addresses used by the core.  The numeric addresses
live in a header that is not part of this file set, so registers are an
enumeration; distinct C macros map to distinct constructors. -/
inductive Reg
  | pwrMgmt0
  | accelConfig0
  | gyroConfig0
  | gyroAccelConfig0
  | gyroConfig0Icm42670
  | accelConfig0Icm42670
  | whoami
  | signalPathReset
  | intStatus
  | intfConfig0
  | fifoConfig
  | intStatusDrdy
  | accelDataX
  deriving DecidableEq, Repr

/-- Error outcomes: a transport (bus I/O) error code, or the fatal
"no such device" bring-up error (ENODEV in the C source). -/
inductive Err
  | transport (code : Int)
  | noDev
  deriving DecidableEq, Repr

/-- Abstract register-transport oracle: read, bulk read and write may
each fail with a transport error; vddioEnable models the regulator
enable call used by resume. -/
structure Bus where
  read : Reg → Except Err Nat
  readBulk : Reg → Nat → Except Err (List Nat)
  write : Reg → Nat → Except Err Unit
  vddioEnable : Except Err Unit

/-- Per-sensor configuration, mirroring struct inv_icm42600_sensor_conf:
four plain int fields where a negative value means "unspecified". -/
structure SensorConf where
  mode : Int
  fs : Int
  odr : Int
  filter : Int
  deriving DecidableEq, Repr

/-- Whole-chip configuration, mirroring struct inv_icm42600_conf. -/
structure Conf where
  gyro : SensorConf
  accel : SensorConf
  temp_en : Bool
  deriving DecidableEq, Repr

/-- Snapshot saved at system suspend (st.suspended in the C source). -/
structure Suspended where
  gyro : Int
  accel : Int
  temp : Bool
  deriving DecidableEq, Repr

/-- Driver state relevant to the core: current configuration, the
suspend snapshot, the FIFO streaming flag and the two interrupt
timestamp slots written by the fast interrupt phase. -/
structure State where
  conf : Conf
  suspended : Suspended
  fifoOn : Bool
  tsGyro : Nat
  tsAccel : Nat
  deriving DecidableEq, Repr

/-- Sensor mode OFF (enum inv_icm42600_sensor_mode, value 0). -/
def SENSOR_MODE_OFF : Int := 0

/-- Sensor mode STANDBY. -/
def SENSOR_MODE_STANDBY : Int := 1

/-- Sensor mode LOW_POWER. -/
def SENSOR_MODE_LOW_POWER : Int := 2

/-- Sensor mode LOW_NOISE. -/
def SENSOR_MODE_LOW_NOISE : Int := 3

/-- Startup and stop settle times in milliseconds.  Their numeric
values live in a header outside this file set, so they are carried as
parameters; every theorem holds for all values. -/
structure Timing where
  tempStartup : Nat
  accelStartup : Nat
  gyroStartup : Nat
  gyroStop : Nat
  deriving DecidableEq, Repr

/-- Modelled from the spec: bit packing of the gyro mode into the
PWR_MGMT0 register (macro INV_ICM42600_PWR_MGMT0_GYRO, header not in
this file set); the mode occupies a dedicated field of the byte. -/
def PWR_MGMT0_GYRO (m : Int) : Nat := (m.toNat % 4) <<< 2

/-- Modelled from the spec: bit packing of the accel mode into the
PWR_MGMT0 register (macro INV_ICM42600_PWR_MGMT0_ACCEL). -/
def PWR_MGMT0_ACCEL (m : Int) : Nat := m.toNat % 4

/-- Modelled from the spec: accel full-scale field of ACCEL_CONFIG0
(macro INV_ICM42600_ACCEL_CONFIG0_FS). -/
def ACCEL_CONFIG0_FS (fs : Int) : Nat := (fs.toNat % 8) <<< 5

/-- Modelled from the spec: accel output-data-rate field of
ACCEL_CONFIG0 (macro INV_ICM42600_ACCEL_CONFIG0_ODR). -/
def ACCEL_CONFIG0_ODR (odr : Int) : Nat := odr.toNat % 16

/-- Modelled from the spec: gyro full-scale field of GYRO_CONFIG0
(macro INV_ICM42600_GYRO_CONFIG0_FS). -/
def GYRO_CONFIG0_FS (fs : Int) : Nat := (fs.toNat % 8) <<< 5

/-- Modelled from the spec: gyro output-data-rate field of GYRO_CONFIG0
(macro INV_ICM42600_GYRO_CONFIG0_ODR). -/
def GYRO_CONFIG0_ODR (odr : Int) : Nat := odr.toNat % 16

/-- Modelled from the spec: accel filter field of the shared
GYRO_ACCEL_CONFIG0 register, which packs both sensors filter bits
(macro INV_ICM42600_GYRO_ACCEL_CONFIG0_ACCEL_FILT). -/
def GYRO_ACCEL_CONFIG0_ACCEL_FILT (f : Int) : Nat := (f.toNat % 16) <<< 4

/-- Modelled from the spec: gyro filter field of the shared
GYRO_ACCEL_CONFIG0 register
(macro INV_ICM42600_GYRO_ACCEL_CONFIG0_GYRO_FILT). -/
def GYRO_ACCEL_CONFIG0_GYRO_FILT (f : Int) : Nat := f.toNat % 16

/-- Modelled from the spec: ICM42670 variant of the gyro full-scale
packing used by the batched default load (macro
INV_ICM42670_GYRO_CONFIG0_FS). -/
def GYRO_CONFIG0_FS_670 (fs : Int) : Nat := (fs.toNat % 8) <<< 5

/-- Modelled from the spec: ICM42670 variant of the gyro rate packing
(macro INV_ICM42670_GYRO_CONFIG0_ODR). -/
def GYRO_CONFIG0_ODR_670 (odr : Int) : Nat := odr.toNat % 16

/-- Modelled from the spec: ICM42670 variant of the accel full-scale
packing (macro INV_ICM42670_ACCEL_CONFIG0_FS). -/
def ACCEL_CONFIG0_FS_670 (fs : Int) : Nat := (fs.toNat % 8) <<< 5

/-- Modelled from the spec: ICM42670 variant of the accel rate packing
(macro INV_ICM42670_ACCEL_CONFIG0_ODR). -/
def ACCEL_CONFIG0_ODR_670 (odr : Int) : Nat := odr.toNat % 16

/-- Modelled from the spec: soft-reset command value written to the
signal-path-reset register during bring-up. -/
def SOFT_RESET_DEVICE_CONFIG : Nat := 1

/-- Modelled from the spec: reset-done bit of the interrupt status
register (macro INV_ICM42600_INT_STATUS_RESET_DONE). -/
def INT_STATUS_RESET_DONE : Nat := 16

/-- Modelled from the spec: sensor-data endianness mask of INTF_CONFIG0
(macro INV_ICM42600_INTF_CONFIG0_SENSOR_DATA_ENDIAN). -/
def INTF_CONFIG0_SENSOR_DATA_ENDIAN : Nat := 48

/-- Modelled from the spec: FIFO bypass command value
(macro INV_ICM42600_FIFO_CONFIG_BYPASS). -/
def FIFO_CONFIG_BYPASS : Nat := 64

/-- Modelled from the spec: FIFO streaming command value
(macro INV_ICM42600_FIFO_CONFIG_STREAM). -/
def FIFO_CONFIG_STREAM : Nat := 128

/-- Result of inv_icm42600_set_pwr_mgmt0: the return code (none is 0),
the updated state, the register writes issued, the value of the
caller-supplied sleep_ms variable after the call, and the milliseconds
slept inline by the function itself. -/
structure PwrRes where
  ret : Option Err
  st : State
  writes : List (Reg × Nat)
  sleepOut : Nat
  slept : Nat
  deriving Repr

/-- Embedding of inv_icm42600_set_pwr_mgmt0 (core.c lines 165-224).
hasSleepPtr tells whether the caller passed a sleep_ms pointer; sleepIn
is the value stored in that variable at the call (the function may
leave it untouched). -/
def inv_icm42600_set_pwr_mgmt0 (tc : Timing) (bus : Bus) (st : State)
    (gyro accel : Int) (temp : Bool) (hasSleepPtr : Bool) (sleepIn : Nat) :
    PwrRes :=
  let oldgyro := st.conf.gyro.mode
  let oldaccel := st.conf.accel.mode
  let oldtemp := st.conf.temp_en
  if gyro = oldgyro ∧ accel = oldaccel ∧ temp = oldtemp then
    ⟨none, st, [], sleepIn, 0⟩
  else
    let val := PWR_MGMT0_GYRO gyro ||| PWR_MGMT0_ACCEL accel
    match bus.write .pwrMgmt0 val with
    | .error e => ⟨some e, st, [(.pwrMgmt0, val)], sleepIn, 0⟩
    | .ok _ =>
      let st1 : State :=
        { st with conf :=
            { st.conf with
                gyro := { st.conf.gyro with mode := gyro },
                accel := { st.conf.accel with mode := accel },
                temp_en := temp } }
      let sleepval : Nat := 0
      let sleepval :=
        if temp ∧ ¬oldtemp then
          if sleepval < tc.tempStartup then tc.tempStartup else sleepval
        else sleepval
      let sleepval :=
        if accel ≠ oldaccel ∧ oldaccel = SENSOR_MODE_OFF then
          if sleepval < tc.accelStartup then tc.accelStartup else sleepval
        else sleepval
      let sleepval :=
        if gyro ≠ oldgyro then
          if oldgyro = SENSOR_MODE_OFF then
            if sleepval < tc.gyroStartup then tc.gyroStartup else sleepval
          else if gyro = SENSOR_MODE_OFF then
            if sleepval < tc.gyroStop then tc.gyroStop else sleepval
          else sleepval
        else sleepval
      if hasSleepPtr then ⟨none, st1, [(.pwrMgmt0, val)], sleepval, 0⟩
      else ⟨none, st1, [(.pwrMgmt0, val)], sleepIn, sleepval⟩

/-- Result of the incremental configuration functions: return code,
updated state, the caller-supplied conf struct after its in-place
mutation, register writes, sleep_ms variable value and inline sleep. -/
structure ConfRes where
  ret : Option Err
  st : State
  conf : SensorConf
  writes : List (Reg × Nat)
  sleepOut : Nat
  slept : Nat
  deriving Repr

/-- Final step of inv_icm42600_set_accel_conf: delegate the accel mode
to inv_icm42600_set_pwr_mgmt0 (core.c lines 265-267). -/
def set_accel_conf_mode_step (tc : Timing) (bus : Bus) (st : State)
    (conf : SensorConf) (writes : List (Reg × Nat))
    (hasSleepPtr : Bool) (sleepIn : Nat) : ConfRes :=
  let r := inv_icm42600_set_pwr_mgmt0 tc bus st st.conf.gyro.mode conf.mode
      st.conf.temp_en hasSleepPtr sleepIn
  ⟨r.ret, r.st, conf, writes ++ r.writes, r.sleepOut, r.slept⟩

/-- Filter step of inv_icm42600_set_accel_conf: write the shared
GYRO_ACCEL_CONFIG0 register when the accel filter changed, packing the
current gyro filter bits alongside (core.c lines 255-263). -/
def set_accel_conf_filter_step (tc : Timing) (bus : Bus) (st : State)
    (conf : SensorConf) (writes : List (Reg × Nat))
    (hasSleepPtr : Bool) (sleepIn : Nat) : ConfRes :=
  if conf.filter ≠ st.conf.accel.filter then
    let val := GYRO_ACCEL_CONFIG0_ACCEL_FILT conf.filter |||
        GYRO_ACCEL_CONFIG0_GYRO_FILT st.conf.gyro.filter
    match bus.write .gyroAccelConfig0 val with
    | .error e =>
        ⟨some e, st, conf, writes ++ [(.gyroAccelConfig0, val)], sleepIn, 0⟩
    | .ok _ =>
        let st1 : State :=
          { st with conf :=
              { st.conf with
                  accel := { st.conf.accel with filter := conf.filter } } }
        set_accel_conf_mode_step tc bus st1 conf
          (writes ++ [(.gyroAccelConfig0, val)]) hasSleepPtr sleepIn
  else
    set_accel_conf_mode_step tc bus st conf writes hasSleepPtr sleepIn

/-- Embedding of inv_icm42600_set_accel_conf (core.c lines 226-268):
sanitize sentinel fields from current state, write ACCEL_CONFIG0 only
on a full-scale or rate delta, then the shared filter register, then
delegate the mode. -/
def inv_icm42600_set_accel_conf (tc : Timing) (bus : Bus) (st : State)
    (conf0 : SensorConf) (hasSleepPtr : Bool) (sleepIn : Nat) : ConfRes :=
  let oldconf := st.conf.accel
  let conf : SensorConf :=
    { mode := if conf0.mode < 0 then oldconf.mode else conf0.mode,
      fs := if conf0.fs < 0 then oldconf.fs else conf0.fs,
      odr := if conf0.odr < 0 then oldconf.odr else conf0.odr,
      filter := if conf0.filter < 0 then oldconf.filter else conf0.filter }
  if conf.fs ≠ oldconf.fs ∨ conf.odr ≠ oldconf.odr then
    let val := ACCEL_CONFIG0_FS conf.fs ||| ACCEL_CONFIG0_ODR conf.odr
    match bus.write .accelConfig0 val with
    | .error e => ⟨some e, st, conf, [(.accelConfig0, val)], sleepIn, 0⟩
    | .ok _ =>
        let st1 : State :=
          { st with conf :=
              { st.conf with
                  accel := { st.conf.accel with fs := conf.fs, odr := conf.odr } } }
        set_accel_conf_filter_step tc bus st1 conf [(.accelConfig0, val)]
          hasSleepPtr sleepIn
  else
    set_accel_conf_filter_step tc bus st conf [] hasSleepPtr sleepIn

/-- Final step of inv_icm42600_set_gyro_conf: delegate the gyro mode to
inv_icm42600_set_pwr_mgmt0 (core.c lines 309-311). -/
def set_gyro_conf_mode_step (tc : Timing) (bus : Bus) (st : State)
    (conf : SensorConf) (writes : List (Reg × Nat))
    (hasSleepPtr : Bool) (sleepIn : Nat) : ConfRes :=
  let r := inv_icm42600_set_pwr_mgmt0 tc bus st conf.mode st.conf.accel.mode
      st.conf.temp_en hasSleepPtr sleepIn
  ⟨r.ret, r.st, conf, writes ++ r.writes, r.sleepOut, r.slept⟩

/-- Filter step of inv_icm42600_set_gyro_conf: write the shared
GYRO_ACCEL_CONFIG0 register when the gyro filter changed, packing the
current accel filter bits alongside (core.c lines 299-307). -/
def set_gyro_conf_filter_step (tc : Timing) (bus : Bus) (st : State)
    (conf : SensorConf) (writes : List (Reg × Nat))
    (hasSleepPtr : Bool) (sleepIn : Nat) : ConfRes :=
  if conf.filter ≠ st.conf.gyro.filter then
    let val := GYRO_ACCEL_CONFIG0_ACCEL_FILT st.conf.accel.filter |||
        GYRO_ACCEL_CONFIG0_GYRO_FILT conf.filter
    match bus.write .gyroAccelConfig0 val with
    | .error e =>
        ⟨some e, st, conf, writes ++ [(.gyroAccelConfig0, val)], sleepIn, 0⟩
    | .ok _ =>
        let st1 : State :=
          { st with conf :=
              { st.conf with
                  gyro := { st.conf.gyro with filter := conf.filter } } }
        set_gyro_conf_mode_step tc bus st1 conf
          (writes ++ [(.gyroAccelConfig0, val)]) hasSleepPtr sleepIn
  else
    set_gyro_conf_mode_step tc bus st conf writes hasSleepPtr sleepIn

/-- Embedding of inv_icm42600_set_gyro_conf (core.c lines 270-314). -/
def inv_icm42600_set_gyro_conf (tc : Timing) (bus : Bus) (st : State)
    (conf0 : SensorConf) (hasSleepPtr : Bool) (sleepIn : Nat) : ConfRes :=
  let oldconf := st.conf.gyro
  let conf : SensorConf :=
    { mode := if conf0.mode < 0 then oldconf.mode else conf0.mode,
      fs := if conf0.fs < 0 then oldconf.fs else conf0.fs,
      odr := if conf0.odr < 0 then oldconf.odr else conf0.odr,
      filter := if conf0.filter < 0 then oldconf.filter else conf0.filter }
  if conf.fs ≠ oldconf.fs ∨ conf.odr ≠ oldconf.odr then
    let val := GYRO_CONFIG0_FS conf.fs ||| GYRO_CONFIG0_ODR conf.odr
    match bus.write .gyroConfig0 val with
    | .error e => ⟨some e, st, conf, [(.gyroConfig0, val)], sleepIn, 0⟩
    | .ok _ =>
        let st1 : State :=
          { st with conf :=
              { st.conf with
                  gyro := { st.conf.gyro with fs := conf.fs, odr := conf.odr } } }
        set_gyro_conf_filter_step tc bus st1 conf [(.gyroConfig0, val)]
          hasSleepPtr sleepIn
  else
    set_gyro_conf_filter_step tc bus st conf [] hasSleepPtr sleepIn

/-- Embedding of inv_icm42600_set_temp_conf (core.c lines 316-322):
pure delegation to inv_icm42600_set_pwr_mgmt0 keeping both modes. -/
def inv_icm42600_set_temp_conf (tc : Timing) (bus : Bus) (st : State)
    (enable : Bool) (hasSleepPtr : Bool) (sleepIn : Nat) : PwrRes :=
  inv_icm42600_set_pwr_mgmt0 tc bus st st.conf.gyro.mode st.conf.accel.mode
    enable hasSleepPtr sleepIn

/-- Result of bring-up style operations: return code, updated state and
register writes issued. -/
structure SetupRes where
  ret : Option Err
  st : State
  writes : List (Reg × Nat)
  deriving Repr

/-- Embedding of inv_icm42600_set_conf (core.c lines 342-373): the
batched default-configuration load writes PWR_MGMT0, GYRO_CONFIG0 and
ACCEL_CONFIG0 in sequence and copies conf into the stored state only
after all three writes succeeded. -/
def inv_icm42600_set_conf (bus : Bus) (st : State) (conf : Conf) : SetupRes :=
  let v1 := PWR_MGMT0_GYRO conf.gyro.mode ||| PWR_MGMT0_ACCEL conf.accel.mode
  match bus.write .pwrMgmt0 v1 with
  | .error e => ⟨some e, st, [(.pwrMgmt0, v1)]⟩
  | .ok _ =>
    let v2 := GYRO_CONFIG0_FS_670 conf.gyro.fs ||| GYRO_CONFIG0_ODR_670 conf.gyro.odr
    match bus.write .gyroConfig0Icm42670 v2 with
    | .error e => ⟨some e, st, [(.pwrMgmt0, v1), (.gyroConfig0Icm42670, v2)]⟩
    | .ok _ =>
      let v3 := ACCEL_CONFIG0_FS_670 conf.accel.fs |||
          ACCEL_CONFIG0_ODR_670 conf.accel.odr
      match bus.write .accelConfig0Icm42670 v3 with
      | .error e =>
          ⟨some e, st,
            [(.pwrMgmt0, v1), (.gyroConfig0Icm42670, v2), (.accelConfig0Icm42670, v3)]⟩
      | .ok _ =>
          ⟨none, { st with conf := conf },
            [(.pwrMgmt0, v1), (.gyroConfig0Icm42670, v2), (.accelConfig0Icm42670, v3)]⟩

/-- Supported chip variants (enum inv_chip, valid members only). -/
inductive Chip
  | icm42600
  | icm42602
  | icm42605
  | icm42622
  | icm42631
  | icm42670
  deriving DecidableEq, Repr

/-- Hardware description per chip variant: expected identity value and
default configuration (struct inv_icm42600_hw). -/
structure Hw where
  whoami : Nat
  conf : Conf
  deriving Repr

/-- Chip initial default configuration for the ICM426xx family
(inv_icm42600_default_conf, core.c lines 55-69).  Enum values follow
the order of the C enums; the gyro full-scale is 2000 dps, the accel
full-scale 16 G, both rates 50 Hz, both filters bandwidth ODR/2. -/
def inv_icm42600_default_conf : Conf :=
  { gyro := { mode := SENSOR_MODE_OFF, fs := 0, odr := 9, filter := 4 },
    accel := { mode := SENSOR_MODE_OFF, fs := 0, odr := 9, filter := 4 },
    temp_en := false }

/-- Default configuration for the ICM42670 variant
(inv_icm42670_default_conf, core.c lines 71-85): both sensors start in
low-noise mode at 200 Hz. -/
def inv_icm42670_default_conf : Conf :=
  { gyro := { mode := SENSOR_MODE_LOW_NOISE, fs := 0, odr := 15, filter := 4 },
    accel := { mode := SENSOR_MODE_LOW_NOISE, fs := 0, odr := 15, filter := 4 },
    temp_en := false }

/-- Modelled from the spec: the per-variant identity values come from a
header outside this file set; all that matters is that each variant has
one expected value.  The hardware table mirrors inv_icm42600_hw
(core.c lines 87-118). -/
def inv_icm42600_hw : Chip → Hw
  | .icm42600 => ⟨64, inv_icm42600_default_conf⟩
  | .icm42602 => ⟨65, inv_icm42600_default_conf⟩
  | .icm42605 => ⟨66, inv_icm42600_default_conf⟩
  | .icm42622 => ⟨70, inv_icm42600_default_conf⟩
  | .icm42631 => ⟨92, inv_icm42600_default_conf⟩
  | .icm42670 => ⟨103, inv_icm42670_default_conf⟩

/-- Tail of inv_icm42600_setup after a successful reset check: the
endianness fix by read-modify-write of INTF_CONFIG0, then the default
configuration load (core.c lines 422-429). -/
def setup_after_reset (bus : Bus) (st : State) (chip : Chip)
    (writes : List (Reg × Nat)) : SetupRes :=
  match bus.read .intfConfig0 with
  | .error e => ⟨some e, st, writes⟩
  | .ok old =>
    let nv := old &&& (255 - INTF_CONFIG0_SENSOR_DATA_ENDIAN)
    match bus.write .intfConfig0 nv with
    | .error e => ⟨some e, st, writes ++ [(.intfConfig0, nv)]⟩
    | .ok _ =>
      let r := inv_icm42600_set_conf bus st (inv_icm42600_hw chip).conf
      ⟨r.ret, r.st, writes ++ [(.intfConfig0, nv)] ++ r.writes⟩

/-- Embedding of inv_icm42600_setup (core.c lines 382-430): identity
check, soft reset, reset-done check, endianness fix, default load.  Any
failure aborts with state unchanged up to that point.  The commented
out bus_setup call in the source is a no-op here as in the code. -/
def inv_icm42600_setup (bus : Bus) (st : State) (chip : Chip) : SetupRes :=
  let hw := inv_icm42600_hw chip
  match bus.read .whoami with
  | .error e => ⟨some e, st, []⟩
  | .ok v =>
    if v ≠ hw.whoami then ⟨some .noDev, st, []⟩
    else
      match bus.write .signalPathReset SOFT_RESET_DEVICE_CONFIG with
      | .error e => ⟨some e, st, [(.signalPathReset, SOFT_RESET_DEVICE_CONFIG)]⟩
      | .ok _ =>
        match bus.read .intStatus with
        | .error e => ⟨some e, st, [(.signalPathReset, SOFT_RESET_DEVICE_CONFIG)]⟩
        | .ok sv =>
          if sv &&& INT_STATUS_RESET_DONE = 0 then
            ⟨some .noDev, st, [(.signalPathReset, SOFT_RESET_DEVICE_CONFIG)]⟩
          else
            setup_after_reset bus st chip
              [(.signalPathReset, SOFT_RESET_DEVICE_CONFIG)]

/-- Embedding of inv_icm42600_irq_timestamp (core.c lines 432-440): the
fast interrupt phase latches the current monotonic time into both
timestamp slots and requests the deferred thread. -/
def inv_icm42600_irq_timestamp (st : State) (now : Nat) : State :=
  { st with tsGyro := now, tsAccel := now }

/-- Sample record pushed to the buffering sink: six signed 16-bit
channels (accel x, y, z then gyro x, y, z) and the timestamp. -/
structure Scan where
  channels : List Int
  ts : Nat
  deriving DecidableEq, Repr

/-- Reinterpretation of a 16-bit little-endian pair as a signed 16-bit
value, as done by the casts in the deferred handler. -/
def toInt16 (n : Nat) : Int :=
  if n % 65536 < 32768 then ((n % 65536 : Nat) : Int)
  else ((n % 65536 : Nat) : Int) - 65536

/-- Embedding of inv_icm42600_irq_handler (core.c lines 442-496): the
deferred phase latches the fast-phase timestamp slot, reads the
data-ready status, on data-ready burst-reads 12 bytes, decodes both
sensor groups and pushes a record to the sink only when the buffer is
enabled.  Read failures abort the phase without producing a record. -/
def inv_icm42600_irq_handler (bus : Bus) (st : State) (bufferEnabled : Bool) :
    State × Option Scan :=
  let timestamp := st.tsAccel
  match bus.read .intStatusDrdy with
  | .error _ => (st, none)
  | .ok status =>
    if status ≠ 0 then
      match bus.readBulk .accelDataX 12 with
      | .error _ => (st, none)
      | .ok data =>
        let b := fun i => data.getD i 0
        let ax := toInt16 (b 0 + 256 * b 1)
        let ay := toInt16 (b 2 + 256 * b 3)
        let az := toInt16 (b 4 + 256 * b 5)
        let gx := toInt16 (b 6 + 256 * b 7)
        let gy := toInt16 (b 8 + 256 * b 9)
        let gz := toInt16 (b 10 + 256 * b 11)
        if bufferEnabled then
          (st, some { channels := [ax, ay, az, gx, gy, gz], ts := timestamp })
        else (st, none)
    else (st, none)

/-- Modelled from the spec: the threaded-IRQ contract (the host kernel
code is outside this file set) runs the fast handler first and only
then the deferred thread, so one interrupt event is the fast phase at
time tf followed by the deferred handler. -/
def inv_icm42600_interrupt (bus : Bus) (st : State) (tf : Nat)
    (bufferEnabled : Bool) : State × Option Scan :=
  inv_icm42600_irq_handler bus (inv_icm42600_irq_timestamp st tf) bufferEnabled

/-- Steps of inv_icm42600_suspend after the FIFO bypass write: force
both sensors off with temperature disabled, then drop the vddio rail
(core.c lines 738-744); the regulator_disable result is ignored by the
source. -/
def suspend_power_off (tc : Timing) (bus : Bus) (st : State)
    (writes : List (Reg × Nat)) : SetupRes :=
  let r := inv_icm42600_set_pwr_mgmt0 tc bus st SENSOR_MODE_OFF SENSOR_MODE_OFF
      false false 0
  ⟨r.ret, r.st, writes ++ r.writes⟩

/-- Embedding of inv_icm42600_suspend (core.c lines 715-749): snapshot
the current modes into st.suspended, skip hardware teardown when
runtime suspend already powered the chip down, otherwise bypass the
FIFO when it is streaming and force the sensors off. -/
def inv_icm42600_suspend (tc : Timing) (bus : Bus) (st : State)
    (runtimeSuspended : Bool) : SetupRes :=
  let st1 : State :=
    { st with suspended :=
        ⟨st.conf.gyro.mode, st.conf.accel.mode, st.conf.temp_en⟩ }
  if runtimeSuspended then ⟨none, st1, []⟩
  else if st1.fifoOn then
    match bus.write .fifoConfig FIFO_CONFIG_BYPASS with
    | .error e => ⟨some e, st1, [(.fifoConfig, FIFO_CONFIG_BYPASS)]⟩
    | .ok _ => suspend_power_off tc bus st1 [(.fifoConfig, FIFO_CONFIG_BYPASS)]
  else suspend_power_off tc bus st1 []

/-- Embedding of inv_icm42600_resume (core.c lines 755-785): re-enable
the vddio rail, restore the sensor modes from the suspend snapshot and
re-enable FIFO streaming when it was active. -/
def inv_icm42600_resume (tc : Timing) (bus : Bus) (st : State) : SetupRes :=
  match bus.vddioEnable with
  | .error e => ⟨some e, st, []⟩
  | .ok _ =>
    let r := inv_icm42600_set_pwr_mgmt0 tc bus st st.suspended.gyro
        st.suspended.accel st.suspended.temp false 0
    match r.ret with
    | some e => ⟨some e, r.st, r.writes⟩
    | none =>
      if r.st.fifoOn then
        match bus.write .fifoConfig FIFO_CONFIG_STREAM with
        | .error e =>
            ⟨some e, r.st, r.writes ++ [(.fifoConfig, FIFO_CONFIG_STREAM)]⟩
        | .ok _ =>
            ⟨none, r.st, r.writes ++ [(.fifoConfig, FIFO_CONFIG_STREAM)]⟩
      else ⟨none, r.st, r.writes⟩

/-- Bus oracle on which every transaction succeeds; reads return 0 and
the data burst returns twelve zero bytes. -/
def okBus : Bus :=
  { read := fun _ => .ok 0,
    readBulk := fun _ n => .ok (List.replicate n 0),
    write := fun _ _ => .ok (),
    vddioEnable := .ok () }

/-- Bus oracle on which exactly the writes to one given register fail
with a fixed transport error; everything else succeeds. -/
def failWriteBus (r : Reg) : Bus :=
  { read := fun _ => .ok 0,
    readBulk := fun _ n => .ok (List.replicate n 0),
    write := fun q _ => if q = r then .error (.transport (-5)) else .ok (),
    vddioEnable := .ok () }

/-- Concrete timing constants used by witnesses only; every theorem is
proved for all Timing values. -/
def timing0 : Timing := ⟨14, 20, 60, 150⟩

/-- Concrete driver state used by witnesses. -/
def state0 : State :=
  { conf := inv_icm42600_default_conf,
    suspended := ⟨0, 0, false⟩,
    fifoOn := false,
    tsGyro := 0,
    tsAccel := 0 }

/-- Bus oracle whose data-ready status read returns 1 and every other
transaction succeeds; used to drive an interrupt through the data
path in witnesses. -/
def drdyBus : Bus :=
  { read := fun r => if r = .intStatusDrdy then .ok 1 else .ok 0,
    readBulk := fun _ n => .ok (List.replicate n 0),
    write := fun _ _ => .ok (),
    vddioEnable := .ok () }

/-- Sample record produced by drdyBus from an all-zero burst latched at
time 3; used by the interrupt witness. -/
def scan0 : Scan := ⟨[0, 0, 0, 0, 0, 0], 3⟩

/-- Helper: a call to inv_icm42600_set_pwr_mgmt0 with the current mode
triple returns immediately with no write, no state change and the
sleep_ms variable untouched. -/
theorem pwr_mgmt0_noop_eq (tc : Timing) (bus : Bus) (st : State)
    (gyro accel : Int) (temp : Bool) (hasSleepPtr : Bool) (sleepIn : Nat)
    (hg : gyro = st.conf.gyro.mode) (ha : accel = st.conf.accel.mode)
    (ht : temp = st.conf.temp_en) :
    inv_icm42600_set_pwr_mgmt0 tc bus st gyro accel temp hasSleepPtr sleepIn =
      ⟨none, st, [], sleepIn, 0⟩ := by
  simp [inv_icm42600_set_pwr_mgmt0, hg, ha, ht]

/-- Helper: the state after inv_icm42600_set_pwr_mgmt0 is either the
input state (no-op or failed write) or the input state with exactly the
two modes and the temperature flag replaced. -/
theorem pwr_mgmt0_state_cases (tc : Timing) (bus : Bus) (st : State)
    (gyro accel : Int) (temp : Bool) (hasSleepPtr : Bool) (sleepIn : Nat) :
    (inv_icm42600_set_pwr_mgmt0 tc bus st gyro accel temp hasSleepPtr
        sleepIn).st = st ∨
    (inv_icm42600_set_pwr_mgmt0 tc bus st gyro accel temp hasSleepPtr
        sleepIn).st =
      { st with conf :=
          { st.conf with
              gyro := { st.conf.gyro with mode := gyro },
              accel := { st.conf.accel with mode := accel },
              temp_en := temp } } := by
  simp only [inv_icm42600_set_pwr_mgmt0]
  by_cases hno : gyro = st.conf.gyro.mode ∧ accel = st.conf.accel.mode ∧
      temp = st.conf.temp_en
  · rw [if_pos hno]
    exact Or.inl rfl
  · rw [if_neg hno]
    cases h : bus.write Reg.pwrMgmt0 (PWR_MGMT0_GYRO gyro ||| PWR_MGMT0_ACCEL accel) with
    | error e => exact Or.inl rfl
    | ok u =>
      cases hasSleepPtr with
      | true => exact Or.inr rfl
      | false => exact Or.inr rfl

/-- Helper: every register write issued by inv_icm42600_set_pwr_mgmt0
targets the power-mode register. -/
theorem pwr_mgmt0_writes_only_pwr (tc : Timing) (bus : Bus) (st : State)
    (gyro accel : Int) (temp : Bool) (hasSleepPtr : Bool) (sleepIn : Nat) :
    ∀ w ∈ (inv_icm42600_set_pwr_mgmt0 tc bus st gyro accel temp hasSleepPtr
        sleepIn).writes, w.1 = Reg.pwrMgmt0 := by
  simp only [inv_icm42600_set_pwr_mgmt0]
  by_cases hno : gyro = st.conf.gyro.mode ∧ accel = st.conf.accel.mode ∧
      temp = st.conf.temp_en
  · rw [if_pos hno]
    simp
  · rw [if_neg hno]
    cases h : bus.write Reg.pwrMgmt0 (PWR_MGMT0_GYRO gyro ||| PWR_MGMT0_ACCEL accel) with
    | error e => simp
    | ok u => cases hasSleepPtr <;> simp

/-- Helper: when the bus accepts power-mode writes, the call succeeds
and the resulting state is the input state with the two modes and the
temperature flag replaced (definitionally the input state itself when
nothing changed). -/
theorem pwr_mgmt0_ok_state (tc : Timing) (bus : Bus) (st : State)
    (gyro accel : Int) (temp : Bool) (hasSleepPtr : Bool) (sleepIn : Nat)
    (hok : ∀ v, bus.write Reg.pwrMgmt0 v = .ok ()) :
    (inv_icm42600_set_pwr_mgmt0 tc bus st gyro accel temp hasSleepPtr
        sleepIn).ret = none ∧
    (inv_icm42600_set_pwr_mgmt0 tc bus st gyro accel temp hasSleepPtr
        sleepIn).st =
      { st with conf :=
          { st.conf with
              gyro := { st.conf.gyro with mode := gyro },
              accel := { st.conf.accel with mode := accel },
              temp_en := temp } } := by
  simp only [inv_icm42600_set_pwr_mgmt0]
  by_cases hno : gyro = st.conf.gyro.mode ∧ accel = st.conf.accel.mode ∧
      temp = st.conf.temp_en
  · rw [if_pos hno]
    obtain ⟨h1, h2, h3⟩ := hno
    subst h1; subst h2; subst h3
    exact ⟨rfl, rfl⟩
  · rw [if_neg hno]
    rw [hok]
    cases hasSleepPtr with
    | true => exact ⟨rfl, rfl⟩
    | false => exact ⟨rfl, rfl⟩

/-- Helper: the mode step hands the caller conf struct through
unchanged. -/
theorem set_accel_conf_mode_step_conf (tc : Timing) (bus : Bus) (st : State)
    (conf : SensorConf) (writes : List (Reg × Nat)) (hasSleepPtr : Bool)
    (sleepIn : Nat) :
    (set_accel_conf_mode_step tc bus st conf writes hasSleepPtr
      sleepIn).conf = conf := rfl

/-- Helper: the accel filter step hands the caller conf struct through
unchanged. -/
theorem set_accel_conf_filter_step_conf (tc : Timing) (bus : Bus) (st : State)
    (conf : SensorConf) (writes : List (Reg × Nat)) (hasSleepPtr : Bool)
    (sleepIn : Nat) :
    (set_accel_conf_filter_step tc bus st conf writes hasSleepPtr
      sleepIn).conf = conf := by
  simp only [set_accel_conf_filter_step]
  by_cases h : conf.filter ≠ st.conf.accel.filter
  · rw [if_pos h]
    cases h2 : bus.write Reg.gyroAccelConfig0
        (GYRO_ACCEL_CONFIG0_ACCEL_FILT conf.filter |||
          GYRO_ACCEL_CONFIG0_GYRO_FILT st.conf.gyro.filter) with
    | error e => rfl
    | ok u => rfl
  · rw [if_neg h]; rfl

/-- Helper: the gyro mode step hands the caller conf struct through
unchanged. -/
theorem set_gyro_conf_mode_step_conf (tc : Timing) (bus : Bus) (st : State)
    (conf : SensorConf) (writes : List (Reg × Nat)) (hasSleepPtr : Bool)
    (sleepIn : Nat) :
    (set_gyro_conf_mode_step tc bus st conf writes hasSleepPtr
      sleepIn).conf = conf := rfl

/-- Helper: the gyro filter step hands the caller conf struct through
unchanged. -/
theorem set_gyro_conf_filter_step_conf (tc : Timing) (bus : Bus) (st : State)
    (conf : SensorConf) (writes : List (Reg × Nat)) (hasSleepPtr : Bool)
    (sleepIn : Nat) :
    (set_gyro_conf_filter_step tc bus st conf writes hasSleepPtr
      sleepIn).conf = conf := by
  simp only [set_gyro_conf_filter_step]
  by_cases h : conf.filter ≠ st.conf.gyro.filter
  · rw [if_pos h]
    cases h2 : bus.write Reg.gyroAccelConfig0
        (GYRO_ACCEL_CONFIG0_ACCEL_FILT st.conf.accel.filter |||
          GYRO_ACCEL_CONFIG0_GYRO_FILT conf.filter) with
    | error e => rfl
    | ok u => rfl
  · rw [if_neg h]; rfl

/-- Helper: on every return path of inv_icm42600_set_accel_conf the
caller conf struct holds the sentinel-resolved configuration. -/
theorem set_accel_conf_conf (tc : Timing) (bus : Bus) (st : State)
    (conf0 : SensorConf) (hasSleepPtr : Bool) (sleepIn : Nat) :
    (inv_icm42600_set_accel_conf tc bus st conf0 hasSleepPtr sleepIn).conf =
      ⟨if conf0.mode < 0 then st.conf.accel.mode else conf0.mode,
        if conf0.fs < 0 then st.conf.accel.fs else conf0.fs,
        if conf0.odr < 0 then st.conf.accel.odr else conf0.odr,
        if conf0.filter < 0 then st.conf.accel.filter else conf0.filter⟩ := by
  simp only [inv_icm42600_set_accel_conf]
  by_cases h : (if conf0.fs < 0 then st.conf.accel.fs else conf0.fs) ≠
      st.conf.accel.fs ∨
      (if conf0.odr < 0 then st.conf.accel.odr else conf0.odr) ≠
      st.conf.accel.odr
  · rw [if_pos h]
    cases h2 : bus.write Reg.accelConfig0
        (ACCEL_CONFIG0_FS (if conf0.fs < 0 then st.conf.accel.fs else conf0.fs) |||
          ACCEL_CONFIG0_ODR
            (if conf0.odr < 0 then st.conf.accel.odr else conf0.odr)) with
    | error e => rfl
    | ok u => exact set_accel_conf_filter_step_conf tc bus _ _ _ hasSleepPtr sleepIn
  · rw [if_neg h]
    exact set_accel_conf_filter_step_conf tc bus _ _ _ hasSleepPtr sleepIn

/-- Helper: on every return path of inv_icm42600_set_gyro_conf the
caller conf struct holds the sentinel-resolved configuration. -/
theorem set_gyro_conf_conf (tc : Timing) (bus : Bus) (st : State)
    (conf0 : SensorConf) (hasSleepPtr : Bool) (sleepIn : Nat) :
    (inv_icm42600_set_gyro_conf tc bus st conf0 hasSleepPtr sleepIn).conf =
      ⟨if conf0.mode < 0 then st.conf.gyro.mode else conf0.mode,
        if conf0.fs < 0 then st.conf.gyro.fs else conf0.fs,
        if conf0.odr < 0 then st.conf.gyro.odr else conf0.odr,
        if conf0.filter < 0 then st.conf.gyro.filter else conf0.filter⟩ := by
  simp only [inv_icm42600_set_gyro_conf]
  by_cases h : (if conf0.fs < 0 then st.conf.gyro.fs else conf0.fs) ≠
      st.conf.gyro.fs ∨
      (if conf0.odr < 0 then st.conf.gyro.odr else conf0.odr) ≠
      st.conf.gyro.odr
  · rw [if_pos h]
    cases h2 : bus.write Reg.gyroConfig0
        (GYRO_CONFIG0_FS (if conf0.fs < 0 then st.conf.gyro.fs else conf0.fs) |||
          GYRO_CONFIG0_ODR
            (if conf0.odr < 0 then st.conf.gyro.odr else conf0.odr)) with
    | error e => rfl
    | ok u => exact set_gyro_conf_filter_step_conf tc bus _ _ _ hasSleepPtr sleepIn
  · rw [if_neg h]
    exact set_gyro_conf_filter_step_conf tc bus _ _ _ hasSleepPtr sleepIn

/-- C3 (counterexample): at a concrete no-op call that supplies the
deferred-delay out-parameter holding 5, inv_icm42600_set_pwr_mgmt0
issues zero writes, keeps the state, returns success, but leaves the
out-parameter at 5 instead of reporting a zero settle delay. -/
theorem set_pwr_mgmt0_noop_keeps_caller_sleep_value :
    (inv_icm42600_set_pwr_mgmt0 timing0 okBus state0 SENSOR_MODE_OFF
        SENSOR_MODE_OFF false true 5).ret = none ∧
    (inv_icm42600_set_pwr_mgmt0 timing0 okBus state0 SENSOR_MODE_OFF
        SENSOR_MODE_OFF false true 5).writes = [] ∧
    (inv_icm42600_set_pwr_mgmt0 timing0 okBus state0 SENSOR_MODE_OFF
        SENSOR_MODE_OFF false true 5).st = state0 ∧
    (inv_icm42600_set_pwr_mgmt0 timing0 okBus state0 SENSOR_MODE_OFF
        SENSOR_MODE_OFF false true 5).sleepOut ≠ 0 := by
  decide

/-- C3 (amended): calling inv_icm42600_set_pwr_mgmt0 with the current
mode triple is a no-op — zero register writes, state unchanged,
success, no inline sleep — and the deferred-delay out-parameter, when
supplied, is left at its caller-provided value, not set to zero. -/
theorem set_pwr_mgmt0_noop (tc : Timing) (bus : Bus) (st : State)
    (gyro accel : Int) (temp : Bool) (hasSleepPtr : Bool) (sleepIn : Nat)
    (hg : gyro = st.conf.gyro.mode) (ha : accel = st.conf.accel.mode)
    (ht : temp = st.conf.temp_en) :
    inv_icm42600_set_pwr_mgmt0 tc bus st gyro accel temp hasSleepPtr sleepIn =
      ⟨none, st, [], sleepIn, 0⟩ :=
  pwr_mgmt0_noop_eq tc bus st gyro accel temp hasSleepPtr sleepIn hg ha ht

/-- Witness for the amended C3 theorem at a concrete no-op input. -/
theorem set_pwr_mgmt0_noop_witness :
    inv_icm42600_set_pwr_mgmt0 timing0 okBus state0 0 0 false true 7 =
      ⟨none, state0, [], 7, 0⟩ :=
  set_pwr_mgmt0_noop timing0 okBus state0 0 0 false true 7 rfl rfl rfl

/-- Helper: the maximum of zero and n is n. -/
theorem nat_max_zero_left (n : Nat) : Nat.max 0 n = n := by
  simp [Nat.max_def]

/-- Helper: the saturating update of the C settle-time accumulator is
the maximum. -/
theorem ite_lt_eq_max (s x : Nat) : (if s < x then x else s) = Nat.max s x := by
  rcases Nat.lt_or_ge s x with h | h
  · rw [if_pos h]
    exact (Nat.max_eq_right (Nat.le_of_lt h)).symm
  · rw [if_neg (Nat.not_lt.mpr h)]
    exact (Nat.max_eq_left h).symm

set_option maxHeartbeats 1000000 in
/-- Helper: closed form of the settle delay computed by a successful
non-trivial inv_icm42600_set_pwr_mgmt0 call, for both the out-parameter
and the inline-sleep variants. -/
theorem pwr_sleep_formula (tc : Timing) (bus : Bus) (st : State)
    (gyro accel : Int) (temp : Bool) (sleepIn : Nat)
    (hchange : ¬(gyro = st.conf.gyro.mode ∧ accel = st.conf.accel.mode ∧
        temp = st.conf.temp_en))
    (hok : ∀ v, bus.write Reg.pwrMgmt0 v = .ok ()) :
    (inv_icm42600_set_pwr_mgmt0 tc bus st gyro accel temp true
        sleepIn).sleepOut =
      Nat.max
        (Nat.max
          (if temp ∧ ¬st.conf.temp_en then tc.tempStartup else 0)
          (if accel ≠ st.conf.accel.mode ∧ st.conf.accel.mode = SENSOR_MODE_OFF
            then tc.accelStartup else 0))
        (if gyro ≠ st.conf.gyro.mode then
            if st.conf.gyro.mode = SENSOR_MODE_OFF then tc.gyroStartup
            else if gyro = SENSOR_MODE_OFF then tc.gyroStop else 0
          else 0) ∧
    (inv_icm42600_set_pwr_mgmt0 tc bus st gyro accel temp false
        sleepIn).slept =
      Nat.max
        (Nat.max
          (if temp ∧ ¬st.conf.temp_en then tc.tempStartup else 0)
          (if accel ≠ st.conf.accel.mode ∧ st.conf.accel.mode = SENSOR_MODE_OFF
            then tc.accelStartup else 0))
        (if gyro ≠ st.conf.gyro.mode then
            if st.conf.gyro.mode = SENSOR_MODE_OFF then tc.gyroStartup
            else if gyro = SENSOR_MODE_OFF then tc.gyroStop else 0
          else 0) := by
  simp only [inv_icm42600_set_pwr_mgmt0, if_neg hchange, hok, ite_lt_eq_max]
  constructor <;>
    (split_ifs <;>
      simp_all [Nat.zero_max, Nat.max_zero, Nat.max_comm, Nat.max_assoc,
        Nat.max_left_comm])

/-- C2: on every successful power-mode change the settle delay
computed by inv_icm42600_set_pwr_mgmt0 — whether reported through the
out-parameter or slept inline — is the maximum, not the sum, of the
applicable floors: the temperature startup floor when temperature is
newly enabled, the accel startup floor when accel leaves Off, the gyro
startup floor when gyro leaves Off and the gyro stop floor when gyro
enters Off; in particular simultaneous accel Off to On and gyro Off to
On with temperature unchanged yields the max of the two startup
floors. -/
theorem set_pwr_mgmt0_settle_delay_is_max (tc : Timing) (bus : Bus) (st : State)
    (gyro accel : Int) (temp : Bool) (sleepIn : Nat)
    (hchange : ¬(gyro = st.conf.gyro.mode ∧ accel = st.conf.accel.mode ∧
        temp = st.conf.temp_en))
    (hok : ∀ v, bus.write Reg.pwrMgmt0 v = .ok ()) :
    (inv_icm42600_set_pwr_mgmt0 tc bus st gyro accel temp true sleepIn).ret =
      none ∧
    (inv_icm42600_set_pwr_mgmt0 tc bus st gyro accel temp true
        sleepIn).sleepOut =
      Nat.max
        (Nat.max
          (if temp ∧ ¬st.conf.temp_en then tc.tempStartup else 0)
          (if accel ≠ st.conf.accel.mode ∧ st.conf.accel.mode = SENSOR_MODE_OFF
            then tc.accelStartup else 0))
        (if gyro ≠ st.conf.gyro.mode then
            if st.conf.gyro.mode = SENSOR_MODE_OFF then tc.gyroStartup
            else if gyro = SENSOR_MODE_OFF then tc.gyroStop else 0
          else 0) ∧
    (inv_icm42600_set_pwr_mgmt0 tc bus st gyro accel temp false
        sleepIn).slept =
      Nat.max
        (Nat.max
          (if temp ∧ ¬st.conf.temp_en then tc.tempStartup else 0)
          (if accel ≠ st.conf.accel.mode ∧ st.conf.accel.mode = SENSOR_MODE_OFF
            then tc.accelStartup else 0))
        (if gyro ≠ st.conf.gyro.mode then
            if st.conf.gyro.mode = SENSOR_MODE_OFF then tc.gyroStartup
            else if gyro = SENSOR_MODE_OFF then tc.gyroStop else 0
          else 0) ∧
    (accel ≠ st.conf.accel.mode → st.conf.accel.mode = SENSOR_MODE_OFF →
      gyro ≠ st.conf.gyro.mode → st.conf.gyro.mode = SENSOR_MODE_OFF →
      ¬(temp ∧ ¬st.conf.temp_en) →
      (inv_icm42600_set_pwr_mgmt0 tc bus st gyro accel temp true
          sleepIn).sleepOut = Nat.max tc.accelStartup tc.gyroStartup) := by
  obtain ⟨hA, hB⟩ := pwr_sleep_formula tc bus st gyro accel temp sleepIn
    hchange hok
  refine ⟨(pwr_mgmt0_ok_state tc bus st gyro accel temp true sleepIn hok).1,
    hA, hB, ?_⟩
  intro h1 h2 h3 h4 h5
  rw [hA, if_neg h5, if_pos ⟨h1, h2⟩, if_pos h3, if_pos h4, nat_max_zero_left]

/-- Witness for C2: from both sensors Off with temperature off, turning
accel and gyro to low-noise at once on an all-ok bus reports the max of
the two startup floors (60 over 20 with the witness timing), not their
sum. -/
theorem set_pwr_mgmt0_settle_delay_is_max_witness :
    (inv_icm42600_set_pwr_mgmt0 timing0 okBus state0 SENSOR_MODE_LOW_NOISE
        SENSOR_MODE_LOW_NOISE false true 0).ret = none ∧
    (inv_icm42600_set_pwr_mgmt0 timing0 okBus state0 SENSOR_MODE_LOW_NOISE
        SENSOR_MODE_LOW_NOISE false true 0).sleepOut =
      Nat.max timing0.accelStartup timing0.gyroStartup := by
  have h := set_pwr_mgmt0_settle_delay_is_max timing0 okBus state0
    SENSOR_MODE_LOW_NOISE SENSOR_MODE_LOW_NOISE false 0 (by decide)
    (fun _ => rfl)
  exact ⟨h.1, h.2.2.2 (by decide) (by decide) (by decide) (by decide)
    (by decide)⟩

/-- C4: when the power-mode register write fails on an actual mode
change, inv_icm42600_set_pwr_mgmt0 returns that transport error and the
stored state is unchanged — no partial mode is recorded. -/
theorem set_pwr_mgmt0_write_failure (tc : Timing) (bus : Bus) (st : State)
    (gyro accel : Int) (temp : Bool) (hasSleepPtr : Bool) (sleepIn : Nat)
    (e : Err)
    (hchange : ¬(gyro = st.conf.gyro.mode ∧ accel = st.conf.accel.mode ∧
        temp = st.conf.temp_en))
    (hfail : bus.write .pwrMgmt0
        (PWR_MGMT0_GYRO gyro ||| PWR_MGMT0_ACCEL accel) = .error e) :
    (inv_icm42600_set_pwr_mgmt0 tc bus st gyro accel temp hasSleepPtr
        sleepIn).ret = some e ∧
    (inv_icm42600_set_pwr_mgmt0 tc bus st gyro accel temp hasSleepPtr
        sleepIn).st = st := by
  simp [inv_icm42600_set_pwr_mgmt0, hchange, hfail]

/-- Witness for C4: switching the gyro to low-noise mode on a bus that
rejects power-mode writes errors out and keeps the state. -/
theorem set_pwr_mgmt0_write_failure_witness :
    (inv_icm42600_set_pwr_mgmt0 timing0 (failWriteBus .pwrMgmt0) state0
        SENSOR_MODE_LOW_NOISE SENSOR_MODE_OFF false true 0).ret =
      some (.transport (-5)) ∧
    (inv_icm42600_set_pwr_mgmt0 timing0 (failWriteBus .pwrMgmt0) state0
        SENSOR_MODE_LOW_NOISE SENSOR_MODE_OFF false true 0).st = state0 :=
  set_pwr_mgmt0_write_failure timing0 (failWriteBus .pwrMgmt0) state0
    SENSOR_MODE_LOW_NOISE SENSOR_MODE_OFF false true 0 (.transport (-5))
    (by decide) rfl

/-- C5: a call to inv_icm42600_set_accel_conf whose mode, full-scale
and rate equal the stored values and whose filter differs issues
exactly one register write, to the shared GYRO_ACCEL_CONFIG0 register,
whose value packs the requested accel filter together with the current
gyro filter bits; the accel scale-and-rate register and the power-mode
register are never written. -/
theorem set_accel_conf_filter_only_single_write (tc : Timing) (bus : Bus)
    (st : State) (conf0 : SensorConf) (hasSleepPtr : Bool) (sleepIn : Nat)
    (hm : conf0.mode = st.conf.accel.mode)
    (hf : conf0.fs = st.conf.accel.fs)
    (ho : conf0.odr = st.conf.accel.odr)
    (hfl0 : 0 ≤ conf0.filter)
    (hfl : conf0.filter ≠ st.conf.accel.filter) :
    (inv_icm42600_set_accel_conf tc bus st conf0 hasSleepPtr sleepIn).writes =
      [(Reg.gyroAccelConfig0,
        GYRO_ACCEL_CONFIG0_ACCEL_FILT conf0.filter |||
          GYRO_ACCEL_CONFIG0_GYRO_FILT st.conf.gyro.filter)] := by
  have hnn : ¬(conf0.filter < 0) := not_lt.mpr hfl0
  simp only [inv_icm42600_set_accel_conf, hm, hf, ho, ite_self, if_neg hnn]
  rw [if_neg (by simp)]
  simp only [set_accel_conf_filter_step]
  rw [if_pos hfl]
  cases h2 : bus.write Reg.gyroAccelConfig0
      (GYRO_ACCEL_CONFIG0_ACCEL_FILT conf0.filter |||
        GYRO_ACCEL_CONFIG0_GYRO_FILT st.conf.gyro.filter) with
  | error e => simp
  | ok u =>
    simp only [set_accel_conf_mode_step]
    rw [pwr_mgmt0_noop_eq tc bus
      { st with conf := { st.conf with
          accel := { st.conf.accel with filter := conf0.filter } } }
      st.conf.gyro.mode st.conf.accel.mode st.conf.temp_en hasSleepPtr sleepIn
      rfl rfl rfl]
    simp

/-- Witness for C5: changing only the accel filter from 4 to 7 on the
default state issues the single shared-filter-register write packing
the gyro filter bits alongside. -/
theorem set_accel_conf_filter_only_single_write_witness :
    (inv_icm42600_set_accel_conf timing0 okBus state0 ⟨0, 0, 9, 7⟩ true
        0).writes =
      [(Reg.gyroAccelConfig0,
        GYRO_ACCEL_CONFIG0_ACCEL_FILT 7 |||
          GYRO_ACCEL_CONFIG0_GYRO_FILT state0.conf.gyro.filter)] :=
  set_accel_conf_filter_only_single_write timing0 okBus state0 ⟨0, 0, 9, 7⟩
    true 0 rfl rfl rfl (by decide) (by decide)

/-- C6: a partial configuration request that specifies only the mode
(all other fields carrying the negative "unspecified" sentinel) leaves
full-scale, rate and filter of both sensors exactly at their prior
stored values, and every register write it issues targets only the
power-mode register — never the scale-rate or filter registers.  This
holds for both inv_icm42600_set_accel_conf and
inv_icm42600_set_gyro_conf, for any bus outcome. -/
theorem mode_only_update_preserves_other_fields (tc : Timing) (bus : Bus)
    (st : State) (m : Int) (hasSleepPtr : Bool) (sleepIn : Nat) :
    ((inv_icm42600_set_accel_conf tc bus st ⟨m, -1, -1, -1⟩ hasSleepPtr
        sleepIn).st.conf.accel.fs = st.conf.accel.fs ∧
      (inv_icm42600_set_accel_conf tc bus st ⟨m, -1, -1, -1⟩ hasSleepPtr
        sleepIn).st.conf.accel.odr = st.conf.accel.odr ∧
      (inv_icm42600_set_accel_conf tc bus st ⟨m, -1, -1, -1⟩ hasSleepPtr
        sleepIn).st.conf.accel.filter = st.conf.accel.filter ∧
      (inv_icm42600_set_accel_conf tc bus st ⟨m, -1, -1, -1⟩ hasSleepPtr
        sleepIn).st.conf.gyro = st.conf.gyro ∧
      (inv_icm42600_set_accel_conf tc bus st ⟨m, -1, -1, -1⟩ hasSleepPtr
        sleepIn).st.conf.temp_en = st.conf.temp_en ∧
      ∀ w ∈ (inv_icm42600_set_accel_conf tc bus st ⟨m, -1, -1, -1⟩ hasSleepPtr
        sleepIn).writes, w.1 = Reg.pwrMgmt0) ∧
    ((inv_icm42600_set_gyro_conf tc bus st ⟨m, -1, -1, -1⟩ hasSleepPtr
        sleepIn).st.conf.gyro.fs = st.conf.gyro.fs ∧
      (inv_icm42600_set_gyro_conf tc bus st ⟨m, -1, -1, -1⟩ hasSleepPtr
        sleepIn).st.conf.gyro.odr = st.conf.gyro.odr ∧
      (inv_icm42600_set_gyro_conf tc bus st ⟨m, -1, -1, -1⟩ hasSleepPtr
        sleepIn).st.conf.gyro.filter = st.conf.gyro.filter ∧
      (inv_icm42600_set_gyro_conf tc bus st ⟨m, -1, -1, -1⟩ hasSleepPtr
        sleepIn).st.conf.accel = st.conf.accel ∧
      (inv_icm42600_set_gyro_conf tc bus st ⟨m, -1, -1, -1⟩ hasSleepPtr
        sleepIn).st.conf.temp_en = st.conf.temp_en ∧
      ∀ w ∈ (inv_icm42600_set_gyro_conf tc bus st ⟨m, -1, -1, -1⟩ hasSleepPtr
        sleepIn).writes, w.1 = Reg.pwrMgmt0) := by
  have hredA : inv_icm42600_set_accel_conf tc bus st ⟨m, -1, -1, -1⟩
      hasSleepPtr sleepIn =
      set_accel_conf_mode_step tc bus st
        ⟨(if m < 0 then st.conf.accel.mode else m), st.conf.accel.fs,
          st.conf.accel.odr, st.conf.accel.filter⟩ [] hasSleepPtr sleepIn := by
    simp [inv_icm42600_set_accel_conf, set_accel_conf_filter_step]
  have hredG : inv_icm42600_set_gyro_conf tc bus st ⟨m, -1, -1, -1⟩
      hasSleepPtr sleepIn =
      set_gyro_conf_mode_step tc bus st
        ⟨(if m < 0 then st.conf.gyro.mode else m), st.conf.gyro.fs,
          st.conf.gyro.odr, st.conf.gyro.filter⟩ [] hasSleepPtr sleepIn := by
    simp [inv_icm42600_set_gyro_conf, set_gyro_conf_filter_step]
  constructor
  · rw [hredA]
    simp only [set_accel_conf_mode_step, List.nil_append]
    refine ⟨?_, ?_, ?_, ?_, ?_,
      pwr_mgmt0_writes_only_pwr tc bus st st.conf.gyro.mode
        (if m < 0 then st.conf.accel.mode else m) st.conf.temp_en hasSleepPtr
        sleepIn⟩ <;>
      rcases pwr_mgmt0_state_cases tc bus st st.conf.gyro.mode
          (if m < 0 then st.conf.accel.mode else m) st.conf.temp_en hasSleepPtr
          sleepIn with hc | hc <;>
        rw [hc]
  · rw [hredG]
    simp only [set_gyro_conf_mode_step, List.nil_append]
    refine ⟨?_, ?_, ?_, ?_, ?_,
      pwr_mgmt0_writes_only_pwr tc bus st
        (if m < 0 then st.conf.gyro.mode else m) st.conf.accel.mode
        st.conf.temp_en hasSleepPtr sleepIn⟩ <;>
      rcases pwr_mgmt0_state_cases tc bus st
          (if m < 0 then st.conf.gyro.mode else m) st.conf.accel.mode
          st.conf.temp_en hasSleepPtr sleepIn with hc | hc <;>
        rw [hc]

/-- Witness for C6: a mode-only accel request at the default state
keeps the stored full-scale and the single write issued targets the
power-mode register. -/
theorem mode_only_update_preserves_other_fields_witness :
    (inv_icm42600_set_accel_conf timing0 okBus state0 ⟨3, -1, -1, -1⟩ true
        0).st.conf.accel.fs = state0.conf.accel.fs ∧
    ((Reg.pwrMgmt0, 3) : Reg × Nat).1 = Reg.pwrMgmt0 := by
  have h := mode_only_update_preserves_other_fields timing0 okBus state0 3
    true 0
  exact ⟨h.1.1, h.1.2.2.2.2.2 (Reg.pwrMgmt0, 3) (by decide)⟩

/-- C7: when the identity register reads back a value different from
the expected one for the configured chip variant, inv_icm42600_setup
returns the fatal no-such-device error, leaves the state unchanged and
issues zero register writes. -/
theorem setup_whoami_mismatch (bus : Bus) (st : State) (chip : Chip) (v : Nat)
    (hread : bus.read .whoami = .ok v)
    (hne : v ≠ (inv_icm42600_hw chip).whoami) :
    inv_icm42600_setup bus st chip = ⟨some .noDev, st, []⟩ := by
  simp [inv_icm42600_setup, hread, hne]

/-- Witness for C7: the all-zero bus answers 0 to the identity read,
which matches no expected value for the icm42600 variant. -/
theorem setup_whoami_mismatch_witness :
    inv_icm42600_setup okBus state0 .icm42600 = ⟨some .noDev, state0, []⟩ :=
  setup_whoami_mismatch okBus state0 .icm42600 0 rfl (by decide)

/-- C9: the batched configuration load inv_icm42600_set_conf is
all-or-nothing on the stored state — it copies conf in only after its
three register writes (power mode, gyro scale and rate, accel scale and
rate) all succeeded, and on any write failure the whole state is left
unchanged. -/
theorem set_conf_all_or_nothing (bus : Bus) (st : State) (c : Conf) :
    ((inv_icm42600_set_conf bus st c).ret = none →
      (inv_icm42600_set_conf bus st c).st.conf = c ∧
      (inv_icm42600_set_conf bus st c).writes.length = 3) ∧
    ((inv_icm42600_set_conf bus st c).ret ≠ none →
      (inv_icm42600_set_conf bus st c).st = st) := by
  cases h1 : bus.write Reg.pwrMgmt0
      (PWR_MGMT0_GYRO c.gyro.mode ||| PWR_MGMT0_ACCEL c.accel.mode) <;>
    cases h2 : bus.write Reg.gyroConfig0Icm42670
        (GYRO_CONFIG0_FS_670 c.gyro.fs ||| GYRO_CONFIG0_ODR_670 c.gyro.odr) <;>
      cases h3 : bus.write Reg.accelConfig0Icm42670
          (ACCEL_CONFIG0_FS_670 c.accel.fs |||
            ACCEL_CONFIG0_ODR_670 c.accel.odr) <;>
        simp [inv_icm42600_set_conf, h1, h2, h3]

/-- Witness for C9: on the all-ok bus the default-configuration load
succeeds, installs the configuration and issued three writes. -/
theorem set_conf_all_or_nothing_witness :
    (inv_icm42600_set_conf okBus state0 inv_icm42670_default_conf).st.conf =
      inv_icm42670_default_conf ∧
    (inv_icm42600_set_conf okBus state0 inv_icm42670_default_conf).writes.length = 3 :=
  (set_conf_all_or_nothing okBus state0 inv_icm42670_default_conf).1 rfl

/-- C1: for an interrupt event whose fast phase runs at time tf and
whose deferred phase begins at any later time td, every sample record
the deferred handler produces carries exactly the timestamp latched by
the fast phase into the timestamp slot — hence a timestamp at most the
deferred-phase start, never a time captured during the deferred read. -/
theorem irq_record_uses_fast_timestamp (bus : Bus) (st : State) (tf td : Nat)
    (buf : Bool) (scan : Scan) (hord : tf ≤ td)
    (hprod : (inv_icm42600_interrupt bus st tf buf).2 = some scan) :
    scan.ts = tf ∧ scan.ts = (inv_icm42600_irq_timestamp st tf).tsAccel ∧
    scan.ts ≤ td := by
  unfold inv_icm42600_interrupt inv_icm42600_irq_handler
      inv_icm42600_irq_timestamp at hprod
  cases h1 : bus.read Reg.intStatusDrdy with
  | error e => simp only [h1] at hprod; exact Option.noConfusion hprod
  | ok status =>
    simp only [h1] at hprod
    by_cases hs : status ≠ 0
    · rw [if_pos hs] at hprod
      cases h2 : bus.readBulk Reg.accelDataX 12 with
      | error e => simp only [h2] at hprod; exact Option.noConfusion hprod
      | ok data =>
        simp only [h2] at hprod
        cases buf with
        | false => simp at hprod
        | true =>
          simp only [if_true] at hprod
          obtain rfl := Option.some.inj hprod
          exact ⟨rfl, rfl, hord⟩
    · rw [if_neg hs] at hprod; simp at hprod

/-- Witness for C1: a concrete interrupt at time 3 with deferred start
5 on a data-ready bus produces the all-zero record stamped 3. -/
theorem irq_record_uses_fast_timestamp_witness :
    scan0.ts = 3 ∧
    scan0.ts = (inv_icm42600_irq_timestamp state0 3).tsAccel ∧
    scan0.ts ≤ 5 :=
  irq_record_uses_fast_timestamp drdyBus state0 3 5 true scan0 (by decide)
    (by decide)

/-- Helper: on a bus that accepts power-mode and FIFO writes, resume
succeeds and yields the input state with the sensor modes and the
temperature flag restored from the suspend snapshot. -/
theorem resume_restores (tc : Timing) (bus : Bus) (st : State)
    (hok : ∀ v, bus.write Reg.pwrMgmt0 v = .ok ())
    (hfifo : ∀ v, bus.write Reg.fifoConfig v = .ok ())
    (hv : bus.vddioEnable = .ok ()) :
    (inv_icm42600_resume tc bus st).ret = none ∧
    (inv_icm42600_resume tc bus st).st =
      { st with conf := { st.conf with
          gyro := { st.conf.gyro with mode := st.suspended.gyro },
          accel := { st.conf.accel with mode := st.suspended.accel },
          temp_en := st.suspended.temp } } := by
  obtain ⟨h1, h2⟩ := pwr_mgmt0_ok_state tc bus st st.suspended.gyro
    st.suspended.accel st.suspended.temp false 0 hok
  simp only [inv_icm42600_resume, hv]
  simp only [h1, h2]
  cases hb : st.fifoOn with
  | true => rw [hfifo]; exact ⟨rfl, rfl⟩
  | false => exact ⟨rfl, rfl⟩

/-- Helper: on a bus that accepts power-mode and FIFO writes, suspend
succeeds and yields either the input state with only the snapshot
taken (runtime-suspended path) or additionally with both sensors forced
off and temperature disabled. -/
theorem suspend_state (tc : Timing) (bus : Bus) (st : State) (rs : Bool)
    (hok : ∀ v, bus.write Reg.pwrMgmt0 v = .ok ())
    (hfifo : ∀ v, bus.write Reg.fifoConfig v = .ok ()) :
    (inv_icm42600_suspend tc bus st rs).ret = none ∧
    ((inv_icm42600_suspend tc bus st rs).st =
        { st with suspended :=
            ⟨st.conf.gyro.mode, st.conf.accel.mode, st.conf.temp_en⟩ } ∨
      (inv_icm42600_suspend tc bus st rs).st =
        { st with
            conf := { st.conf with
              gyro := { st.conf.gyro with mode := SENSOR_MODE_OFF },
              accel := { st.conf.accel with mode := SENSOR_MODE_OFF },
              temp_en := false },
            suspended :=
              ⟨st.conf.gyro.mode, st.conf.accel.mode, st.conf.temp_en⟩ }) := by
  cases rs with
  | true =>
    simp only [inv_icm42600_suspend]
    exact ⟨rfl, Or.inl rfl⟩
  | false =>
    simp only [inv_icm42600_suspend]
    cases hb : st.fifoOn with
    | true =>
      rw [hfifo]
      obtain ⟨p1, p2⟩ := pwr_mgmt0_ok_state tc bus
        { conf := st.conf,
          suspended :=
            ⟨st.conf.gyro.mode, st.conf.accel.mode, st.conf.temp_en⟩,
          fifoOn := true, tsGyro := st.tsGyro, tsAccel := st.tsAccel }
        SENSOR_MODE_OFF SENSOR_MODE_OFF false false 0 hok
      exact ⟨p1, Or.inr p2⟩
    | false =>
      obtain ⟨p1, p2⟩ := pwr_mgmt0_ok_state tc bus
        { conf := st.conf,
          suspended :=
            ⟨st.conf.gyro.mode, st.conf.accel.mode, st.conf.temp_en⟩,
          fifoOn := false, tsGyro := st.tsGyro, tsAccel := st.tsAccel }
        SENSOR_MODE_OFF SENSOR_MODE_OFF false false 0 hok
      exact ⟨p1, Or.inr p2⟩

/-- C8: suspending and then resuming with no intervening configuration
change, on a bus where every hardware operation succeeds, restores the
whole stored configuration (gyro config, accel config and the
temperature flag) exactly to its pre-suspend value and leaves the FIFO
streaming flag at its pre-suspend value, whether or not the device was
already runtime-suspended. -/
theorem suspend_resume_roundtrip (tc : Timing) (bus : Bus) (st : State)
    (rs : Bool) (hw : ∀ r v, bus.write r v = .ok ())
    (hv : bus.vddioEnable = .ok ()) :
    (inv_icm42600_suspend tc bus st rs).ret = none ∧
    (inv_icm42600_resume tc bus (inv_icm42600_suspend tc bus st rs).st).ret =
      none ∧
    (inv_icm42600_resume tc bus
        (inv_icm42600_suspend tc bus st rs).st).st.conf = st.conf ∧
    (inv_icm42600_resume tc bus
        (inv_icm42600_suspend tc bus st rs).st).st.fifoOn = st.fifoOn := by
  have hok : ∀ v, bus.write Reg.pwrMgmt0 v = .ok () := fun v => hw _ _
  have hfifo : ∀ v, bus.write Reg.fifoConfig v = .ok () := fun v => hw _ _
  obtain ⟨hs1, hs2⟩ := suspend_state tc bus st rs hok hfifo
  rcases hs2 with h | h
  · obtain ⟨r1, r2⟩ := resume_restores tc bus
      { st with suspended :=
          ⟨st.conf.gyro.mode, st.conf.accel.mode, st.conf.temp_en⟩ }
      hok hfifo hv
    refine ⟨hs1, ?_, ?_, ?_⟩
    · rw [h]; exact r1
    · rw [h, r2]
    · rw [h, r2]
  · obtain ⟨r1, r2⟩ := resume_restores tc bus
      { st with
          conf := { st.conf with
            gyro := { st.conf.gyro with mode := SENSOR_MODE_OFF },
            accel := { st.conf.accel with mode := SENSOR_MODE_OFF },
            temp_en := false },
          suspended :=
            ⟨st.conf.gyro.mode, st.conf.accel.mode, st.conf.temp_en⟩ }
      hok hfifo hv
    refine ⟨hs1, ?_, ?_, ?_⟩
    · rw [h]; exact r1
    · rw [h, r2]
    · rw [h, r2]

/-- Witness for C8: the full suspend-resume cycle on the default state
with the all-ok bus succeeds and restores configuration and FIFO
flag. -/
theorem suspend_resume_roundtrip_witness :
    (inv_icm42600_suspend timing0 okBus state0 false).ret = none ∧
    (inv_icm42600_resume timing0 okBus
        (inv_icm42600_suspend timing0 okBus state0 false).st).ret = none ∧
    (inv_icm42600_resume timing0 okBus
        (inv_icm42600_suspend timing0 okBus state0 false).st).st.conf =
      state0.conf ∧
    (inv_icm42600_resume timing0 okBus
        (inv_icm42600_suspend timing0 okBus state0 false).st).st.fifoOn =
      state0.fifoOn :=
  suspend_resume_roundtrip timing0 okBus state0 false (fun _ _ => rfl) rfl

/-- C10: inv_icm42600_set_accel_conf and inv_icm42600_set_gyro_conf
mutate the caller conf struct in place: every field passed with the
negative "unspecified" sentinel is overwritten with the current stored
value before use, so on return (on every path) the argument holds the
fully resolved configuration — and, as long as the stored values are
themselves valid (non-negative), no sentinel field remains. -/
theorem sentinel_fields_resolved_in_place (tc : Timing) (bus : Bus)
    (st : State) (conf0 : SensorConf) (hasSleepPtr : Bool) (sleepIn : Nat)
    (ham : 0 ≤ st.conf.accel.mode) (haf : 0 ≤ st.conf.accel.fs)
    (hao : 0 ≤ st.conf.accel.odr) (hafi : 0 ≤ st.conf.accel.filter)
    (hgm : 0 ≤ st.conf.gyro.mode) (hgf : 0 ≤ st.conf.gyro.fs)
    (hgo : 0 ≤ st.conf.gyro.odr) (hgfi : 0 ≤ st.conf.gyro.filter) :
    ((inv_icm42600_set_accel_conf tc bus st conf0 hasSleepPtr sleepIn).conf =
        ⟨if conf0.mode < 0 then st.conf.accel.mode else conf0.mode,
          if conf0.fs < 0 then st.conf.accel.fs else conf0.fs,
          if conf0.odr < 0 then st.conf.accel.odr else conf0.odr,
          if conf0.filter < 0 then st.conf.accel.filter else conf0.filter⟩ ∧
      0 ≤ (inv_icm42600_set_accel_conf tc bus st conf0 hasSleepPtr
        sleepIn).conf.mode ∧
      0 ≤ (inv_icm42600_set_accel_conf tc bus st conf0 hasSleepPtr
        sleepIn).conf.fs ∧
      0 ≤ (inv_icm42600_set_accel_conf tc bus st conf0 hasSleepPtr
        sleepIn).conf.odr ∧
      0 ≤ (inv_icm42600_set_accel_conf tc bus st conf0 hasSleepPtr
        sleepIn).conf.filter) ∧
    ((inv_icm42600_set_gyro_conf tc bus st conf0 hasSleepPtr sleepIn).conf =
        ⟨if conf0.mode < 0 then st.conf.gyro.mode else conf0.mode,
          if conf0.fs < 0 then st.conf.gyro.fs else conf0.fs,
          if conf0.odr < 0 then st.conf.gyro.odr else conf0.odr,
          if conf0.filter < 0 then st.conf.gyro.filter else conf0.filter⟩ ∧
      0 ≤ (inv_icm42600_set_gyro_conf tc bus st conf0 hasSleepPtr
        sleepIn).conf.mode ∧
      0 ≤ (inv_icm42600_set_gyro_conf tc bus st conf0 hasSleepPtr
        sleepIn).conf.fs ∧
      0 ≤ (inv_icm42600_set_gyro_conf tc bus st conf0 hasSleepPtr
        sleepIn).conf.odr ∧
      0 ≤ (inv_icm42600_set_gyro_conf tc bus st conf0 hasSleepPtr
        sleepIn).conf.filter) := by
  have hA := set_accel_conf_conf tc bus st conf0 hasSleepPtr sleepIn
  have hG := set_gyro_conf_conf tc bus st conf0 hasSleepPtr sleepIn
  refine ⟨⟨hA, ?_, ?_, ?_, ?_⟩, ⟨hG, ?_, ?_, ?_, ?_⟩⟩ <;>
    first
      | (simp only [hA]; split_ifs <;> omega)
      | (simp only [hG]; split_ifs <;> omega)

/-- Witness for C10: with every field but the rate passed as the
sentinel, the returned conf struct holds the stored values with the
requested rate, all non-negative. -/
theorem sentinel_fields_resolved_in_place_witness :
    (inv_icm42600_set_accel_conf timing0 okBus state0 ⟨-1, -1, 5, -1⟩ true
        0).conf.mode = 0 ∧
    0 ≤ (inv_icm42600_set_accel_conf timing0 okBus state0 ⟨-1, -1, 5, -1⟩ true
        0).conf.mode := by
  have h := sentinel_fields_resolved_in_place timing0 okBus state0
    ⟨-1, -1, 5, -1⟩ true 0 (by decide) (by decide) (by decide) (by decide)
    (by decide) (by decide) (by decide) (by decide)
  refine ⟨?_, h.1.2.1⟩
  rw [h.1.1]
  decide

end Icm42600
